import Mathlib

/-!
Shallow embedding of the Green Building Materials Advisor app (src/app.py):
the image normalizer `encode_image_to_base64`, the requester
`analyze_building_with_gpt4o`, the credential resolution `get_api_key` /
`resolved_api_key`, and the submit-button handler, together with theorems
settling the specification claims about them.

Modelling conventions:
* PIL images are modelled by their caller-visible dimensions and color mode;
  pixel contents are abstracted (resampling is observed through the
  dimensions it produces).
* Real-number arithmetic inside PIL's `Image.thumbnail` size computation is
  modelled exactly over the integers (Python performs it in floating point;
  the rounding choices are identical for all realistic image sizes).
* The external OpenAI call is modelled by an oracle `ApiOutcome` describing
  how the single `chat.completions.create` call terminates; the streamlit
  UI effects are modelled as the list of error messages shown, the success
  flag, and the session-state result slot before/after the handler.
-/

namespace GreenBuildingApp

/-- Color modes a decoded upload (PNG/JPEG, per the file uploader) can carry. -/
inductive Mode
  | RGB
  | RGBA
  | L
  | LA
  | P
  | CMYK
deriving DecidableEq

/-- Model of a decoded PIL image: caller-visible pixel dimensions and color
mode.  `Image.thumbnail` mutates these in place; the pixel buffer itself is
abstracted. -/
structure Img where
  width : Nat
  height : Nat
  mode : Mode
deriving DecidableEq

/-- Printable name of a color mode (as it appears in Pillow error text). -/
def modeName : Mode → String
  | .RGB => "RGB"
  | .RGBA => "RGBA"
  | .L => "L"
  | .LA => "LA"
  | .P => "P"
  | .CMYK => "CMYK"

/-- Pillow's JPEG plugin can encode modes such as L, RGB and CMYK; for
modes with an alpha channel or a palette (RGBA, LA, P) `Image.save(...,
format="JPEG")` raises `OSError: cannot write mode ... as JPEG`. -/
def jpegWritable : Mode → Bool
  | .RGB => true
  | .L => true
  | .CMYK => true
  | .RGBA => false
  | .LA => false
  | .P => false

/-- PIL `round_aspect` for the branch `x = round_aspect(y * aspect, ...)` of
`Image.thumbnail`: the exact value is `num / den` as a real number; the code
takes `max(min(floor, ceil, key=λ n, abs(aspect - n / y)), 1)`, i.e. whichever
of floor and ceil is nearest to the exact ratio (floor on ties, since Python's
`min` keeps the first argument), clamped to at least 1. -/
def roundAspect1 (num den : Nat) : Nat :=
  let fl := num / den
  let r := num % den
  let ce := if r = 0 then fl else fl + 1
  let chosen := if 2 * r ≤ den then fl else ce
  max chosen 1

/-- PIL `round_aspect` for the branch `y = round_aspect(x / aspect, ...)` of
`Image.thumbnail`, whose key is `λ n, 0 if n == 0 else abs(aspect - x / n)`:
candidate 0 has minimal key, otherwise the comparison
`abs(aspect - x/floor) ≤ abs(aspect - x/ceil)` reduces over the integers to
`r * ceil ≤ (den - r) * floor`; the result is clamped to at least 1. -/
def roundAspect2 (num den : Nat) : Nat :=
  let fl := num / den
  let r := num % den
  let ce := if r = 0 then fl else fl + 1
  let chosen := if fl = 0 then 0 else if r * ce ≤ (den - r) * fl then fl else ce
  max chosen 1

/-- Dimension computation of PIL `Image.thumbnail((sx, sy))` for an image of
size `w × h`: no change when the image already fits the bound; otherwise the
bounding box is filled along the tighter axis and the other dimension is
rounded from the exact aspect-preserving value (`x / y >= aspect` over the
rationals is `w * sy ≤ sx * h`). -/
def thumbnail (w h sx sy : Nat) : Nat × Nat :=
  if w ≤ sx ∧ h ≤ sy then (w, h)
  else if w * sy ≤ sx * h then (roundAspect1 (sy * w) h, sy)
  else (sx, roundAspect2 (sx * h) w)

/-- Interface model of Pillow's JPEG encoder: the byte stream it emits is
framed by the SOI marker (FF D8) and the EOI marker (FF D9) and records the
image height and width (as in the SOF0 segment of a real JPEG). -/
def jpegBytes (img : Img) : List Nat :=
  [255, 216, 192, img.height / 256, img.height % 256,
   img.width / 256, img.width % 256, 255, 217]

/-- Recover the `(width, height)` recorded in a byte stream produced by the
JPEG encoder model, if the stream is well formed. -/
def jpegDecodeDims (bs : List Nat) : Option (Nat × Nat) :=
  match bs with
  | 255 :: 216 :: 192 :: h1 :: h2 :: w1 :: w2 :: 255 :: 217 :: [] =>
      some (w1 * 256 + w2, h1 * 256 + h2)
  | _ => none

/-- A valid JPEG byte stream begins with the SOI marker and ends with the
EOI marker. -/
def isValidJpeg (bs : List Nat) : Bool :=
  decide (bs.take 2 = [255, 216]) && decide (bs.drop (bs.length - 2) = [255, 217])

/-- The base64 alphabet, in index order. -/
def b64chars : String :=
  "ABCDEFGHIJKLMNOPQRSTUVWXYZabcdefghijklmnopqrstuvwxyz0123456789+/"

/-- Character at a given 6-bit index of the base64 alphabet. -/
def b64char (i : Nat) : Char :=
  b64chars.data.getD i 'A'

/-- Standard base64 of a byte list (RFC 4648), three bytes to four output
characters, with `=` padding; this is `base64.b64encode`. -/
def b64encodeList : List Nat → List Char
  | [] => []
  | [a] =>
      [b64char (a / 4), b64char (a % 4 * 16), '=', '=']
  | [a, b] =>
      [b64char (a / 4), b64char (a % 4 * 16 + b / 16), b64char (b % 16 * 4), '=']
  | a :: b :: c :: rest =>
      b64char (a / 4) :: b64char (a % 4 * 16 + b / 16) ::
        b64char (b % 16 * 4 + c / 64) :: b64char (c % 64) :: b64encodeList rest

/-- `base64.b64encode(...).decode()` as a string. -/
def b64encode (bs : List Nat) : String :=
  String.mk (b64encodeList bs)

/-- Model of `encode_image_to_base64` (src/app.py, lines 36-45).  Returns the
caller-visible image after the call — PIL `thumbnail` resizes the argument in
place — together with the outcome: the base64 payload on success, or the
message of the `OSError` that `image.save(buffer, format="JPEG", quality=85)`
raises for a color mode the JPEG encoder cannot write. -/
def encode_image_to_base64 (image : Img) : Img × Except String String :=
  let image2 :=
    if 1024 < image.width ∨ 1024 < image.height then
      let sz := thumbnail image.width image.height 1024 1024
      { image with width := sz.1, height := sz.2 }
    else image
  if jpegWritable image2.mode then
    (image2, .ok (b64encode (jpegBytes image2)))
  else
    (image2, .error ("cannot write mode " ++ modeName image2.mode ++ " as JPEG"))

/-! ## Recommendation requester (`analyze_building_with_gpt4o`) -/

/-- One returned chat message; its `content` field is nullable in the OpenAI
client. -/
structure Msg where
  content : Option String
deriving DecidableEq

/-- Oracle describing how the single `client.chat.completions.create` call
terminates: a response carrying a list of choices, or one of the exception
classes the code catches (`openai.AuthenticationError`,
`openai.RateLimitError`, `openai.APIError` with its detail text, or any other
exception with its detail text). -/
inductive ApiOutcome
  | success (choices : List Msg)
  | authenticationError
  | rateLimitError
  | apiError (detail : String)
  | otherError (detail : String)
deriving DecidableEq

/-- The single multimodal chat request the requester constructs. -/
structure ChatRequest where
  model : String
  promptText : String
  imageUrl : String
  imageDetail : String
deriving DecidableEq

/-- Observable run of the requester: the requests it sent, the `st.error`
message it showed (if any), and its return value (`str | None`). -/
structure RequesterRun where
  requests : List ChatRequest
  errorMsg : Option String
  retval : Option String
deriving DecidableEq

/-- Message shown on `openai.AuthenticationError`. -/
def authFailedMsg : String :=
  "Authentication failed. Please check your OpenAI API key."

/-- Message shown on `openai.RateLimitError`. -/
def rateLimitMsg : String :=
  "Rate limit exceeded. Please try again later."

/-- Message shown on `openai.APIError`, with the service-provided detail. -/
def apiErrorMsg (detail : String) : String :=
  "API error occurred: " ++ detail

/-- Message shown on any other exception, with its text surfaced verbatim. -/
def unexpectedErrorMsg (detail : String) : String :=
  "An unexpected error occurred: " ++ detail

/-- Detail text of the Python `IndexError` raised by `resp.choices[0]` on an
empty choice list (caught by the final `except Exception`). -/
def indexErrorDetail : String :=
  "list index out of range"

/-- Template text of the instruction f-string up to the `{budget}` slot. -/
def promptPart1 : String :=
  "\nYou are a green building materials expert.\n\n1) The user provides an image (blueprint or photo) of a building they plan to build or improve.\n2) Recommend the best materials to build/upgrade this structure with a sustainability focus.\n3) Adjust choices to the user\x27s customization and needs: The user\x27s budget level is "

/-- Template text between the `{budget}` and `{ai_style}` slots. -/
def promptPart2 : String :=
  " and your tone should be "

/-- Template text between the `{ai_style}` slot and the greeting opener. -/
def promptPart3head : String :=
  ".\n4) Provide specific, actionable recommendations with brief explanations (durability, embodied carbon, insulation value, maintenance, cost tradeoffs).\n5) Where helpful, suggest alternatives by budget tier and note key standards/certifications (e.g., FSC, EPD, Energy Star).\n\nWhen you are ready, begin your report with the following:\n\n"

/-- Template text between the `{ai_style}` and `{name}` slots (ends with the
greeting opener `Hi `). -/
def promptPart3 : String :=
  promptPart3head ++ "Hi "

/-- Template text after the `{name}` slot: the comma and trailing whitespace
closing the greeting line. -/
def promptPart4 : String :=
  ", \n"

/-- The instruction text the requester constructs (the f-string `prompt` at
src/app.py lines 53-65), with the three interpolated values: the budget tier,
the tone, and the display name `name` read from the enclosing script scope. -/
def buildPrompt (budget ai_style name : String) : String :=
  promptPart1 ++ budget ++ promptPart2 ++ ai_style ++ promptPart3 ++ name ++ promptPart4

/-- Model of `analyze_building_with_gpt4o` (src/app.py lines 48-99): build
the instruction text, send exactly one request carrying it together with the
image data URI, and either return the first choice's message content, or show
the error message of the exception class that fired and fall through to
`return None`.  An empty `choices` list makes `resp.choices[0]` raise
`IndexError`, caught by the final `except Exception`. -/
def analyze_building_with_gpt4o (image_base64 : String) (_api_key : String)
    (budget : String) (ai_style : String) (name : String)
    (api : ApiOutcome) : RequesterRun :=
  let req : ChatRequest :=
    { model := "gpt-4o"
      promptText := buildPrompt budget ai_style name
      imageUrl := "data:image/jpeg;base64," ++ image_base64
      imageDetail := "high" }
  match api with
  | .success [] =>
      { requests := [req]
        errorMsg := some (unexpectedErrorMsg indexErrorDetail)
        retval := none }
  | .success (m :: _) =>
      { requests := [req], errorMsg := none, retval := m.content }
  | .authenticationError =>
      { requests := [req], errorMsg := some authFailedMsg, retval := none }
  | .rateLimitError =>
      { requests := [req], errorMsg := some rateLimitMsg, retval := none }
  | .apiError detail =>
      { requests := [req], errorMsg := some (apiErrorMsg detail), retval := none }
  | .otherError detail =>
      { requests := [req], errorMsg := some (unexpectedErrorMsg detail), retval := none }

/-- The value `analyze_building_with_gpt4o` returns, as a function of the API
oracle alone (the requester's return value does not depend on the payload or
the preference strings). -/
def apiRetval (api : ApiOutcome) : Option String :=
  match api with
  | .success [] => none
  | .success (m :: _) => m.content
  | _ => none

/-- The error message `analyze_building_with_gpt4o` shows, as a function of
the API oracle alone. -/
def apiErrorShown (api : ApiOutcome) : Option String :=
  match api with
  | .success [] => some (unexpectedErrorMsg indexErrorDetail)
  | .success (_ :: _) => none
  | .authenticationError => some authFailedMsg
  | .rateLimitError => some rateLimitMsg
  | .apiError detail => some (apiErrorMsg detail)
  | .otherError detail => some (unexpectedErrorMsg detail)

/-! ## Credential resolution and the submit handler -/

/-- Python truthiness of a `str | None` value: `None` and the empty string
are falsy. -/
def pyTruthy : Option String → Bool
  | none => false
  | some s => !s.isEmpty

/-- Model of `get_api_key` (src/app.py lines 16-33): return the Streamlit
secrets entry when present and truthy (a failed lookup raises and is
swallowed; a present-but-empty entry falls through), else the value of the
`OPENAI_API_KEY` environment variable (`os.getenv`: `None` when unset). -/
def get_api_key (secrets : Option String) (env : Option String) : Option String :=
  match secrets with
  | some key => if !key.isEmpty then some key else env
  | none => env

/-- Model of `resolved_api_key = user_api_key or get_api_key()`
(src/app.py line 113): the sidebar override when non-empty, else the
secrets/environment chain. -/
def resolved_api_key (user_api_key : String) (secrets env : Option String) :
    Option String :=
  if !user_api_key.isEmpty then some user_api_key else get_api_key secrets env

/-- Message shown when no credential resolves. -/
def noApiKeyMsg : String := "❌ No API key configured."

/-- Message shown when no image has been uploaded. -/
def noImageMsg : String := "Please upload an image before submitting."

/-- Message shown when the requester returns a falsy result. -/
def analysisFailedMsg : String := "Failed to analyze the image. Please try again."

/-- Observable run of the submit-button handler: the stored-result slot
after the handler, the `st.error` messages shown (in order), whether
`st.success` was shown, whether the requester ran, how many API requests
went out, and the message of an uncaught exception if the handler crashed
(the normalizer's `OSError` is not caught by anything in the handler). -/
structure SubmitRun where
  slot : Option String
  errorsShown : List String
  successShown : Bool
  requesterInvoked : Bool
  requestsSent : Nat
  crashed : Option String
deriving DecidableEq

/-- Model of the submit-button handler (src/app.py lines 193-206), given the
resolved credential, the uploaded image (if any), the three preference
widgets, the API oracle, and the stored-result slot
`st.session_state.analysis_result` before the click (`none` when unset). -/
def submitHandler (resolved : Option String) (image : Option Img)
    (budget ai_style name : String) (api : ApiOutcome)
    (slot : Option String) : SubmitRun :=
  if !pyTruthy resolved then
    { slot := slot, errorsShown := [noApiKeyMsg], successShown := false
      requesterInvoked := false, requestsSent := 0, crashed := none }
  else
    match image with
    | none =>
        { slot := slot, errorsShown := [noImageMsg], successShown := false
          requesterInvoked := false, requestsSent := 0, crashed := none }
    | some img =>
        match encode_image_to_base64 img with
        | (_, .error e) =>
            { slot := slot, errorsShown := [], successShown := false
              requesterInvoked := false, requestsSent := 0, crashed := some e }
        | (_, .ok payload) =>
            let run := analyze_building_with_gpt4o payload
              (resolved.getD "") budget ai_style name api
            if pyTruthy run.retval then
              { slot := run.retval, errorsShown := [], successShown := true
                requesterInvoked := true, requestsSent := run.requests.length
                crashed := none }
            else
              { slot := slot
                errorsShown := run.errorMsg.toList ++ [analysisFailedMsg]
                successShown := false, requesterInvoked := true
                requestsSent := run.requests.length, crashed := none }

/-- A string occurs somewhere inside another. -/
def containsSub (s sub : String) : Prop :=
  ∃ a b, s = a ++ sub ++ b

/-- The payload, when the normalizer produced one, is the base64 encoding of
a valid JPEG byte stream recording the given width and height. -/
def okDecodesTo (res : Except String String) (w h : Nat) : Prop :=
  match res with
  | .error _ => True
  | .ok s => ∃ bs, s = b64encode bs ∧ isValidJpeg bs = true ∧
      jpegDecodeDims bs = some (w, h)

/-! ## Helper lemmas about the thumbnail arithmetic -/

/-- `roundAspect1` yields the floor of the exact ratio or its successor
(the latter only when the division is inexact), clamped to at least 1. -/
lemma roundAspect1_cases (num den : Nat) :
    roundAspect1 num den = max (num / den) 1 ∨
      (roundAspect1 num den = max (num / den + 1) 1 ∧ num % den ≠ 0) := by
  unfold roundAspect1
  by_cases hr : num % den = 0
  · left
    simp [hr]
  · by_cases h2 : 2 * (num % den) ≤ den
    · left
      simp [hr, h2]
    · right
      exact ⟨by simp [hr, h2], hr⟩

/-- `roundAspect2` yields the floor of the exact ratio or its successor
(the latter only when the division is inexact), clamped to at least 1. -/
lemma roundAspect2_cases (num den : Nat) :
    roundAspect2 num den = max (num / den) 1 ∨
      (roundAspect2 num den = max (num / den + 1) 1 ∧ num % den ≠ 0) := by
  unfold roundAspect2
  by_cases hr : num % den = 0
  · by_cases hfl : num / den = 0
    · left
      simp [hr, hfl]
    · left
      simp [hr, hfl]
  · by_cases hfl : num / den = 0
    · left
      simp [hr, hfl]
    · by_cases hc : num % den * (num / den + 1) ≤ (den - num % den) * (num / den)
      · left
        simp [hr, hfl, hc]
      · right
        exact ⟨by simp [hr, hfl, hc], hr⟩

/-- Either rounding choice stays within the bound `B` when the exact ratio
does. -/
lemma roundChoice_le (num den B x : Nat) (hden : 0 < den) (hB : 1 ≤ B)
    (h : num ≤ B * den)
    (hx : x = max (num / den) 1 ∨ (x = max (num / den + 1) 1 ∧ num % den ≠ 0)) :
    x ≤ B := by
  have hfl : num / den ≤ B := by
    calc num / den ≤ B * den / den := Nat.div_le_div_right h
    _ = B := Nat.mul_div_cancel B hden
  rcases hx with hx | ⟨hx, hr⟩
  · rw [hx]
    exact max_le hfl hB
  · have hlt : num < B * den := by
      rcases lt_or_eq_of_le h with h' | h'
      · exact h'
      · exact absurd (h' ▸ Nat.mul_mod_left B den) hr
    have hq : num / den < B := (Nat.div_lt_iff_lt_mul hden).mpr hlt
    rw [hx]
    exact max_le hq hB

/-- Either rounding choice is within one denominator of the exact ratio. -/
lemma roundChoice_aspect (num den x : Nat) (hden : 0 < den)
    (hx : x = max (num / den) 1 ∨ (x = max (num / den + 1) 1 ∧ num % den ≠ 0)) :
    x * den ≤ num + den ∧ num ≤ x * den + den := by
  have h1 : num / den * den ≤ num := Nat.div_mul_le_self num den
  have h2 : num < num / den * den + den := Nat.lt_div_mul_add hden
  rcases hx with hx | ⟨hx, -⟩
  · rcases Nat.eq_zero_or_pos (num / den) with hq | hq
    · rw [hx, hq]
      rw [hq] at h1 h2
      simp only [Nat.max_eq_right (by omega : (0:Nat) ≤ 1), one_mul]
      omega
    · rw [hx, Nat.max_eq_left hq]
      generalize num / den * den = A at h1 h2 ⊢
      omega
  · rw [hx, Nat.max_eq_left (Nat.le_add_left 1 (num / den))]
    rw [Nat.succ_mul]
    generalize num / den * den = A at h1 h2 ⊢
    omega

/-- The caller-visible image after `encode_image_to_base64`: resized in place
exactly when a dimension exceeds the bound (the JPEG-save step never changes
the image object). -/
lemma encode_image_fst (img : Img) :
    (encode_image_to_base64 img).1 =
      if 1024 < img.width ∨ 1024 < img.height then
        { img with width := (thumbnail img.width img.height 1024 1024).1,
                   height := (thumbnail img.width img.height 1024 1024).2 }
      else img := by
  unfold encode_image_to_base64
  by_cases hbig : 1024 < img.width ∨ 1024 < img.height
  · simp only [if_pos hbig]
    split <;> rfl
  · simp only [if_neg hbig]
    split <;> rfl

/-- Dimension specification of the thumbnail pass on an oversized image:
both output dimensions fit the bound and the output cross-ratio is within
one rounding step of the input one. -/
lemma thumbnail_spec (w h : Nat) (hbig : 1024 < w ∨ 1024 < h) :
    (thumbnail w h 1024 1024).1 ≤ 1024 ∧
    (thumbnail w h 1024 1024).2 ≤ 1024 ∧
    (thumbnail w h 1024 1024).1 * h ≤ (thumbnail w h 1024 1024).2 * w + max w h ∧
    (thumbnail w h 1024 1024).2 * w ≤ (thumbnail w h 1024 1024).1 * h + max w h := by
  unfold thumbnail
  have hnotfit : ¬(w ≤ 1024 ∧ h ≤ 1024) := by omega
  rw [if_neg hnotfit]
  by_cases hbr : w * 1024 ≤ 1024 * h
  · rw [if_pos hbr]
    have hwh : w ≤ h := by omega
    have hh : 1024 < h := by omega
    have hx := roundAspect1_cases (1024 * w) h
    have hle : roundAspect1 (1024 * w) h ≤ 1024 :=
      roundChoice_le (1024 * w) h 1024 _ (by omega) (by omega) (by omega) hx
    have hasp := roundChoice_aspect (1024 * w) h _ (by omega) hx
    have hmax : max w h = h := max_eq_right hwh
    simp only [hmax]
    exact ⟨hle, le_refl 1024, by omega, by omega⟩
  · rw [if_neg hbr]
    have hwh : h < w := by omega
    have hw : 1024 < w := by omega
    have hx := roundAspect2_cases (1024 * h) w
    have hle : roundAspect2 (1024 * h) w ≤ 1024 :=
      roundChoice_le (1024 * h) w 1024 _ (by omega) (by omega) (by omega) hx
    have hasp := roundChoice_aspect (1024 * h) w _ (by omega) hx
    have hmax : max w h = w := max_eq_left (by omega)
    simp only [hmax]
    exact ⟨le_refl 1024, hle, by omega, by omega⟩

/-- The normalizer's JPEG output for a writable mode: the result component of
`encode_image_to_base64` on an image that needs no resize. -/
lemma encode_image_snd_small (img : Img) (hw : img.width ≤ 1024)
    (hh : img.height ≤ 1024) :
    (encode_image_to_base64 img).2 =
      if jpegWritable img.mode then Except.ok (b64encode (jpegBytes img))
      else Except.error ("cannot write mode " ++ modeName img.mode ++ " as JPEG") := by
  unfold encode_image_to_base64
  have hc : ¬(1024 < img.width ∨ 1024 < img.height) := by omega
  simp only [if_neg hc]
  split <;> rfl

/-- The model JPEG byte stream is SOI/EOI framed. -/
lemma jpegBytes_valid (img : Img) : isValidJpeg (jpegBytes img) = true := by
  simp [isValidJpeg, jpegBytes]

/-- The model JPEG byte stream records exactly the image's dimensions. -/
lemma jpegBytes_dims (img : Img) :
    jpegDecodeDims (jpegBytes img) = some (img.width, img.height) := by
  have h0 : jpegDecodeDims (jpegBytes img) =
      some (img.width / 256 * 256 + img.width % 256,
            img.height / 256 * 256 + img.height % 256) := rfl
  rw [h0]
  simp only [Option.some.injEq, Prod.mk.injEq]
  constructor <;> omega

/-! ## Claim theorems: the image normalizer -/

/-- C1 (amended): the Image Normalizer leaves the caller-visible image object
unchanged exactly when both of its dimensions are at most 1024; whenever a
dimension exceeds 1024, `image.thumbnail` resizes the caller's image in
place, a caller-visible side effect beyond allocating the transformed
buffer. -/
theorem claim_C1_normalizer_mutates_iff_oversized (img : Img) :
    (encode_image_to_base64 img).1 = img ↔
      img.width ≤ 1024 ∧ img.height ≤ 1024 := by
  rw [encode_image_fst]
  by_cases hbig : 1024 < img.width ∨ 1024 < img.height
  · rw [if_pos hbig]
    have hb := thumbnail_spec img.width img.height hbig
    constructor
    · intro he
      have e1 : (thumbnail img.width img.height 1024 1024).1 = img.width :=
        congrArg Img.width he
      have e2 : (thumbnail img.width img.height 1024 1024).2 = img.height :=
        congrArg Img.height he
      exact ⟨by omega, by omega⟩
    · intro hsmall
      exfalso
      omega
  · rw [if_neg hbig]
    constructor
    · intro _
      omega
    · intro _
      rfl

/-- C1, counterexample to the claim as stated: on a 2048 × 1024 RGB image the
caller-visible image object is not the same after the call — the normalizer
has shrunk it in place to 1024 × 512. -/
theorem claim_C1_inplace_mutation_cex :
    (encode_image_to_base64 (Img.mk 2048 1024 Mode.RGB)).1 ≠ Img.mk 2048 1024 Mode.RGB ∧
    (encode_image_to_base64 (Img.mk 2048 1024 Mode.RGB)).1.width = 1024 ∧
    (encode_image_to_base64 (Img.mk 2048 1024 Mode.RGB)).1.height = 512 := by
  decide

/-- C2: evaluating the normalizer at a decoded image whose color mode is
RGBA (a PNG with an alpha channel, which the uploader accepts): the JPEG
save step raises `OSError: cannot write mode RGBA as JPEG` instead of
producing a payload, contradicting the stated absence of an error path. -/
theorem claim_C2_rgba_save_raises :
    (encode_image_to_base64 (Img.mk 10 10 Mode.RGBA)).2 =
      Except.error "cannot write mode RGBA as JPEG" ∧
    (encode_image_to_base64 (Img.mk 10 10 Mode.RGBA)).1 = Img.mk 10 10 Mode.RGBA := by
  exact ⟨rfl, rfl⟩

/-- C3: for every source image with a dimension over 1024, the normalizer's
output image has both dimensions at most 1024 and its aspect ratio matches
the original within rounding (the cross products `width * h` and
`height * w` differ by at most one rounding step). -/
theorem claim_C3_oversized_output_bounded (img : Img)
    (hbig : 1024 < img.width ∨ 1024 < img.height) :
    (encode_image_to_base64 img).1.width ≤ 1024 ∧
    (encode_image_to_base64 img).1.height ≤ 1024 ∧
    (encode_image_to_base64 img).1.width * img.height ≤
      (encode_image_to_base64 img).1.height * img.width + max img.width img.height ∧
    (encode_image_to_base64 img).1.height * img.width ≤
      (encode_image_to_base64 img).1.width * img.height + max img.width img.height := by
  have hfst := encode_image_fst img
  rw [if_pos hbig] at hfst
  rw [hfst]
  exact thumbnail_spec img.width img.height hbig

/-- C3, witness at a concrete 2048 × 1536 image. -/
theorem claim_C3_witness :
    (1024 < (2048:Nat) ∨ 1024 < (1536:Nat)) ∧
    ((encode_image_to_base64 (Img.mk 2048 1536 Mode.RGB)).1.width ≤ 1024 ∧
     (encode_image_to_base64 (Img.mk 2048 1536 Mode.RGB)).1.height ≤ 1024 ∧
     (encode_image_to_base64 (Img.mk 2048 1536 Mode.RGB)).1.width * 1536 ≤
       (encode_image_to_base64 (Img.mk 2048 1536 Mode.RGB)).1.height * 2048 + max 2048 1536 ∧
     (encode_image_to_base64 (Img.mk 2048 1536 Mode.RGB)).1.height * 2048 ≤
       (encode_image_to_base64 (Img.mk 2048 1536 Mode.RGB)).1.width * 1536 + max 2048 1536) :=
  ⟨by decide, claim_C3_oversized_output_bounded (Img.mk 2048 1536 Mode.RGB) (by decide)⟩

/-- C4: for every source image with both dimensions at most 1024, the
normalizer does not alter the pixel dimensions — the image object is
untouched and any payload it produces is the base64 of a valid JPEG stream
recording exactly the input width and height. -/
theorem claim_C4_small_image_unchanged (img : Img)
    (hw : img.width ≤ 1024) (hh : img.height ≤ 1024) :
    (encode_image_to_base64 img).1 = img ∧
    okDecodesTo (encode_image_to_base64 img).2 img.width img.height := by
  have hfst := encode_image_fst img
  rw [if_neg (by omega : ¬(1024 < img.width ∨ 1024 < img.height))] at hfst
  refine ⟨hfst, ?_⟩
  rw [encode_image_snd_small img hw hh]
  by_cases hjw : jpegWritable img.mode
  · rw [if_pos hjw]
    exact ⟨jpegBytes img, rfl, jpegBytes_valid img, jpegBytes_dims img⟩
  · rw [if_neg hjw]
    trivial

/-- C4, witness at a concrete 640 × 480 image. -/
theorem claim_C4_witness :
    (640:Nat) ≤ 1024 ∧ (480:Nat) ≤ 1024 ∧
    ((encode_image_to_base64 (Img.mk 640 480 Mode.RGB)).1 = Img.mk 640 480 Mode.RGB ∧
     okDecodesTo (encode_image_to_base64 (Img.mk 640 480 Mode.RGB)).2 640 480) :=
  ⟨by decide, by decide,
    claim_C4_small_image_unchanged (Img.mk 640 480 Mode.RGB) (by decide) (by decide)⟩

/-! ## Helper lemmas about the requester and the submit handler -/

/-- The requester's return value is determined by the API oracle alone. -/
lemma analyze_retval (p k b s n : String) (api : ApiOutcome) :
    (analyze_building_with_gpt4o p k b s n api).retval = apiRetval api := by
  cases api with
  | success choices => cases choices <;> rfl
  | authenticationError => rfl
  | rateLimitError => rfl
  | apiError d => rfl
  | otherError d => rfl

/-- The requester's shown error message is determined by the API oracle
alone. -/
lemma analyze_errorMsg (p k b s n : String) (api : ApiOutcome) :
    (analyze_building_with_gpt4o p k b s n api).errorMsg = apiErrorShown api := by
  cases api with
  | success choices => cases choices <;> rfl
  | authenticationError => rfl
  | rateLimitError => rfl
  | apiError d => rfl
  | otherError d => rfl

/-- The requester sends exactly one request on every path. -/
lemma analyze_requests (p k b s n : String) (api : ApiOutcome) :
    (analyze_building_with_gpt4o p k b s n api).requests.length = 1 := by
  cases api with
  | success choices => cases choices <;> rfl
  | authenticationError => rfl
  | rateLimitError => rfl
  | apiError d => rfl
  | otherError d => rfl

/-- Two strings that differ at some character position differ. -/
lemma ne_of_data_get (s t : String) (n : Nat) (c1 c2 : Char)
    (h1 : s.data[n]? = some c1) (h2 : t.data[n]? = some c2) (hne : c1 ≠ c2) :
    s ≠ t := by
  intro h
  rw [h, h2] at h1
  exact hne (Option.some.inj h1).symm

/-- Character lookup in an appended string stays in the first part. -/
lemma data_get_append (pre suf : String) (n : Nat) (hn : n < pre.data.length) :
    (pre ++ suf).data[n]? = pre.data[n]? := by
  rw [String.data_append]
  exact List.getElem?_append_left hn

/-- The authentication message differs from every API-error message. -/
lemma auth_ne_apiError (d : String) : authFailedMsg ≠ apiErrorMsg d := by
  refine ne_of_data_get _ _ 1 'u' 'P' rfl ?_ (by decide)
  rw [show apiErrorMsg d = "API error occurred: " ++ d from rfl,
    data_get_append _ _ 1 (by decide)]
  rfl

/-- The authentication message differs from every unexpected-error message. -/
lemma auth_ne_unexpected (d : String) : authFailedMsg ≠ unexpectedErrorMsg d := by
  refine ne_of_data_get _ _ 1 'u' 'n' rfl ?_ (by decide)
  rw [show unexpectedErrorMsg d = "An unexpected error occurred: " ++ d from rfl,
    data_get_append _ _ 1 (by decide)]
  rfl

/-- The rate-limit message differs from every API-error message. -/
lemma rate_ne_apiError (d : String) : rateLimitMsg ≠ apiErrorMsg d := by
  refine ne_of_data_get _ _ 0 'R' 'A' rfl ?_ (by decide)
  rw [show apiErrorMsg d = "API error occurred: " ++ d from rfl,
    data_get_append _ _ 0 (by decide)]
  rfl

/-- The rate-limit message differs from every unexpected-error message. -/
lemma rate_ne_unexpected (d : String) : rateLimitMsg ≠ unexpectedErrorMsg d := by
  refine ne_of_data_get _ _ 0 'R' 'A' rfl ?_ (by decide)
  rw [show unexpectedErrorMsg d = "An unexpected error occurred: " ++ d from rfl,
    data_get_append _ _ 0 (by decide)]
  rfl

/-- An API-error message differs from every unexpected-error message. -/
lemma apiError_ne_unexpected (d d2 : String) :
    apiErrorMsg d ≠ unexpectedErrorMsg d2 := by
  refine ne_of_data_get _ _ 1 'P' 'n' ?_ ?_ (by decide)
  · rw [show apiErrorMsg d = "API error occurred: " ++ d from rfl,
      data_get_append _ _ 1 (by decide)]
    rfl
  · rw [show unexpectedErrorMsg d2 = "An unexpected error occurred: " ++ d2 from rfl,
      data_get_append _ _ 1 (by decide)]
    rfl

/-! ## Claim theorems: the requester and the submit handler -/

/-- C5 (amended): the stored-result slot is updated atomically — it takes
the requester's returned text in full (no merge) exactly when the requester
ran and returned a non-empty text, and keeps its previous value untouched in
every other case (failure, missing inputs, a crash of the normalizer, or a
returned text that is empty or null, which the handler's truthiness test
also routes to the failure branch). -/
theorem claim_C5_slot_replacement (resolved : Option String) (image : Option Img)
    (budget ai_style name : String) (api : ApiOutcome) (slot : Option String) :
    (submitHandler resolved image budget ai_style name api slot).slot =
      if (submitHandler resolved image budget ai_style name api slot).requesterInvoked = true
          ∧ pyTruthy (apiRetval api) = true
      then apiRetval api else slot := by
  unfold submitHandler
  cases hres : pyTruthy resolved with
  | false => simp
  | true =>
    simp only [hres, Bool.not_true, Bool.false_eq_true, if_false]
    cases image with
    | none => simp
    | some img =>
      dsimp only
      rcases henc : encode_image_to_base64 img with ⟨img2, res⟩
      cases res with
      | error e =>
        simp
      | ok payload =>
        dsimp only
        rw [analyze_retval payload (resolved.getD "") budget ai_style name api]
        by_cases hrv : pyTruthy (apiRetval api) = true
        · simp [hrv]
        · simp [hrv]

/-- C5, counterexample to the claim as stated: a submission on which the
requester succeeds and returns the extracted text `""` (not one of the four
failure conditions) does not replace the previously stored result — the
handler's truthiness test `if result:` routes the empty string to the
failure branch, so the slot keeps its old value instead of the new
result. -/
theorem claim_C5_empty_result_cex :
    apiRetval (ApiOutcome.success [Msg.mk (some "")]) = some "" ∧
    (submitHandler (some "sk-test") (some (Img.mk 100 50 Mode.RGB)) "Basic" "Casual"
        "Ana" (ApiOutcome.success [Msg.mk (some "")]) (some "previous")).requesterInvoked
      = true ∧
    (submitHandler (some "sk-test") (some (Img.mk 100 50 Mode.RGB)) "Basic" "Casual"
        "Ana" (ApiOutcome.success [Msg.mk (some "")]) (some "previous")).slot
      = some "previous" ∧
    (submitHandler (some "sk-test") (some (Img.mk 100 50 Mode.RGB)) "Basic" "Casual"
        "Ana" (ApiOutcome.success [Msg.mk (some "")]) (some "previous")).slot
      ≠ some "" := by
  decide

/-- C6: a submission with no resolvable credential — empty sidebar override,
no truthy secrets entry, no truthy `OPENAI_API_KEY` environment variable —
does not invoke the requester, sends no request, shows exactly the
missing-credential message, and leaves the stored result untouched. -/
theorem claim_C6_missing_credential (user : String) (secrets env : Option String)
    (image : Option Img) (budget ai_style name : String) (api : ApiOutcome)
    (slot : Option String)
    (hu : user.isEmpty = true) (hs : pyTruthy secrets = false)
    (he : pyTruthy env = false) :
    (submitHandler (resolved_api_key user secrets env) image budget ai_style name api
        slot).requesterInvoked = false ∧
    (submitHandler (resolved_api_key user secrets env) image budget ai_style name api
        slot).requestsSent = 0 ∧
    (submitHandler (resolved_api_key user secrets env) image budget ai_style name api
        slot).errorsShown = [noApiKeyMsg] ∧
    (submitHandler (resolved_api_key user secrets env) image budget ai_style name api
        slot).slot = slot := by
  have hres : pyTruthy (resolved_api_key user secrets env) = false := by
    cases secrets with
    | none =>
      simpa [resolved_api_key, get_api_key, hu] using he
    | some k =>
      have hk : k.isEmpty = true := by
        revert hs
        simp [pyTruthy]
      simpa [resolved_api_key, get_api_key, hu, hk] using he
  refine ⟨?_, ?_, ?_, ?_⟩ <;> simp [submitHandler, hres]

/-- C6, witness at the fully absent credential sources. -/
theorem claim_C6_witness :
    "".isEmpty = true ∧ pyTruthy (none : Option String) = false ∧
    pyTruthy (none : Option String) = false ∧
    ((submitHandler (resolved_api_key "" none none) none "Basic" "Casual" ""
        ApiOutcome.rateLimitError none).requesterInvoked = false ∧
     (submitHandler (resolved_api_key "" none none) none "Basic" "Casual" ""
        ApiOutcome.rateLimitError none).requestsSent = 0 ∧
     (submitHandler (resolved_api_key "" none none) none "Basic" "Casual" ""
        ApiOutcome.rateLimitError none).errorsShown = [noApiKeyMsg] ∧
     (submitHandler (resolved_api_key "" none none) none "Basic" "Casual" ""
        ApiOutcome.rateLimitError none).slot = none) :=
  ⟨by decide, by decide, by decide,
    claim_C6_missing_credential "" none none none "Basic" "Casual" ""
      ApiOutcome.rateLimitError none (by decide) (by decide) (by decide)⟩

/-- C7 (amended): a submission with a resolvable credential and no uploaded
image does not invoke the requester, sends no request, shows exactly the
missing-image message, and leaves the stored result untouched.  (The
credential check runs first, so without a credential the missing-credential
message is shown instead; see the counterexample.) -/
theorem claim_C7_missing_image (resolved : Option String)
    (budget ai_style name : String) (api : ApiOutcome) (slot : Option String)
    (hres : pyTruthy resolved = true) :
    (submitHandler resolved none budget ai_style name api slot).requesterInvoked
      = false ∧
    (submitHandler resolved none budget ai_style name api slot).requestsSent = 0 ∧
    (submitHandler resolved none budget ai_style name api slot).errorsShown
      = [noImageMsg] ∧
    (submitHandler resolved none budget ai_style name api slot).slot = slot := by
  refine ⟨?_, ?_, ?_, ?_⟩ <;> simp [submitHandler, hres]

/-- C7, counterexample to the claim as stated: a submission with no uploaded
image and no resolvable credential produces the missing-credential message,
not the missing-image message (the credential guard is checked first). -/
theorem claim_C7_credential_checked_first_cex :
    (submitHandler (resolved_api_key "" none none) none "Basic" "Casual" ""
        ApiOutcome.rateLimitError none).errorsShown = [noApiKeyMsg] ∧
    noImageMsg ∉ (submitHandler (resolved_api_key "" none none) none "Basic" "Casual"
        "" ApiOutcome.rateLimitError none).errorsShown := by
  decide

/-- C7, witness for the amended claim at a concrete resolvable credential. -/
theorem claim_C7_witness :
    pyTruthy (some "sk-test") = true ∧
    ((submitHandler (some "sk-test") none "Basic" "Casual" ""
        ApiOutcome.rateLimitError none).requesterInvoked = false ∧
     (submitHandler (some "sk-test") none "Basic" "Casual" ""
        ApiOutcome.rateLimitError none).requestsSent = 0 ∧
     (submitHandler (some "sk-test") none "Basic" "Casual" ""
        ApiOutcome.rateLimitError none).errorsShown = [noImageMsg] ∧
     (submitHandler (some "sk-test") none "Basic" "Casual" ""
        ApiOutcome.rateLimitError none).slot = none) :=
  ⟨by decide,
    claim_C7_missing_image (some "sk-test") "Basic" "Casual" ""
      ApiOutcome.rateLimitError none (by decide)⟩

/-- C8: the requester sends exactly one request on every path (no retry, no
backoff); on a successful response it returns the first returned message's
text content with no error shown; each of the four caught error conditions
returns `none` and shows its own message; and the four messages are pairwise
distinct for all service-provided details. -/
theorem claim_C8_requester_single_request_and_errors
    (image_base64 api_key budget ai_style name d d2 : String)
    (api : ApiOutcome) (c : Option String) (ms : List Msg) :
    (analyze_building_with_gpt4o image_base64 api_key budget ai_style name
        api).requests.length = 1 ∧
    (analyze_building_with_gpt4o image_base64 api_key budget ai_style name
        (ApiOutcome.success (Msg.mk c :: ms))).retval = c ∧
    (analyze_building_with_gpt4o image_base64 api_key budget ai_style name
        (ApiOutcome.success (Msg.mk c :: ms))).errorMsg = none ∧
    (analyze_building_with_gpt4o image_base64 api_key budget ai_style name
        ApiOutcome.authenticationError).retval = none ∧
    (analyze_building_with_gpt4o image_base64 api_key budget ai_style name
        ApiOutcome.authenticationError).errorMsg = some authFailedMsg ∧
    (analyze_building_with_gpt4o image_base64 api_key budget ai_style name
        ApiOutcome.rateLimitError).retval = none ∧
    (analyze_building_with_gpt4o image_base64 api_key budget ai_style name
        ApiOutcome.rateLimitError).errorMsg = some rateLimitMsg ∧
    (analyze_building_with_gpt4o image_base64 api_key budget ai_style name
        (ApiOutcome.apiError d)).retval = none ∧
    (analyze_building_with_gpt4o image_base64 api_key budget ai_style name
        (ApiOutcome.apiError d)).errorMsg = some (apiErrorMsg d) ∧
    (analyze_building_with_gpt4o image_base64 api_key budget ai_style name
        (ApiOutcome.otherError d)).retval = none ∧
    (analyze_building_with_gpt4o image_base64 api_key budget ai_style name
        (ApiOutcome.otherError d)).errorMsg = some (unexpectedErrorMsg d) ∧
    authFailedMsg ≠ rateLimitMsg ∧
    authFailedMsg ≠ apiErrorMsg d ∧
    authFailedMsg ≠ unexpectedErrorMsg d ∧
    rateLimitMsg ≠ apiErrorMsg d ∧
    rateLimitMsg ≠ unexpectedErrorMsg d ∧
    apiErrorMsg d ≠ unexpectedErrorMsg d2 :=
  ⟨analyze_requests image_base64 api_key budget ai_style name api,
    rfl, rfl, rfl, rfl, rfl, rfl, rfl, rfl, rfl, rfl,
    by decide, auth_ne_apiError d, auth_ne_unexpected d,
    rate_ne_apiError d, rate_ne_unexpected d, apiError_ne_unexpected d d2⟩

/-! ## Claim theorems: the instruction text -/

/-- C9: for every display name, the instruction text constructed for
budget tier `Premium` and tone `Formal` contains the literal substrings
`Premium` and `Formal`. -/
theorem claim_C9_prompt_contains_premium_formal (name : String) :
    containsSub (buildPrompt "Premium" "Formal" name) "Premium" ∧
    containsSub (buildPrompt "Premium" "Formal" name) "Formal" := by
  constructor
  · exact ⟨promptPart1,
      promptPart2 ++ "Formal" ++ promptPart3 ++ name ++ promptPart4,
      by simp [buildPrompt, String.append_assoc]⟩
  · exact ⟨promptPart1 ++ "Premium" ++ promptPart2,
      promptPart3 ++ name ++ promptPart4,
      by simp [buildPrompt, String.append_assoc]⟩

/-- C10: for every submission, the constructed instruction text ends with
the greeting directive — the suffix `Hi {name}, ` followed by the closing
newline, with the display name interpolated verbatim — and contains
`Hi {name},`; in particular, with an empty display name the text still
contains the greeting `Hi ,` rather than omitting it or substituting a
placeholder. -/
theorem claim_C10_prompt_greeting_suffix (budget ai_style name : String) :
    (∃ pre, buildPrompt budget ai_style name =
      pre ++ ("Hi " ++ name ++ ", \n")) ∧
    containsSub (buildPrompt budget ai_style name) ("Hi " ++ name ++ ",") ∧
    containsSub (buildPrompt budget ai_style "") "Hi ," := by
  have hP4 : promptPart4 = "," ++ " \n" := by decide
  refine ⟨⟨promptPart1 ++ budget ++ promptPart2 ++ ai_style ++ promptPart3head, ?_⟩,
    ⟨promptPart1 ++ budget ++ promptPart2 ++ ai_style ++ promptPart3head,
      " \n", ?_⟩,
    ⟨promptPart1 ++ budget ++ promptPart2 ++ ai_style ++ promptPart3head,
      " \n", ?_⟩⟩
  · simp [buildPrompt, promptPart3, promptPart4, String.append_assoc]
  · rw [buildPrompt, promptPart3, hP4]
    simp [String.append_assoc]
  · rw [buildPrompt, promptPart3, hP4]
    simp [String.append_assoc]

end GreenBuildingApp
